import Mathlib

/-!
A verification development for the `notify` cross-platform file-system
notification library.  The repository's `src/lib.rs` provides the public
facade: the `Watcher` trait (`new_immediate`, `watch`, `unwatch`, the
defaulted `configure`), the `RecommendedWatcher` alias and the free
function `immediate_watcher`.  The event model, configuration, error and
debounce modules are declared there (`mod debounce;` etc.) but their
bodies are not part of the sources at hand, so those components are
modelled from the specification's data model (§3), debounce algorithm
(§4.2) and error taxonomy (§7).
-/

namespace Notify

/-- Modelled from the spec (§3, the `raw_event` module is not in the
sources): the bitset of low-level operation flags carried by a raw
event.  Multiple bits may be set simultaneously. -/
structure Op where
  create : Bool := false
  write : Bool := false
  remove : Bool := false
  rename : Bool := false
  metadata : Bool := false
  closeWrite : Bool := false
  rescan : Bool := false
deriving DecidableEq, Repr

/-- Bitset union: the OR-merge the debounce engine applies when folding a
new raw operation into the pending bitset for a path (§4.2 step 1). -/
def Op.or (a b : Op) : Op :=
  ⟨a.create || b.create, a.write || b.write, a.remove || b.remove,
   a.rename || b.rename, a.metadata || b.metadata,
   a.closeWrite || b.closeWrite, a.rescan || b.rescan⟩

/-- A raw `WRITE` operation bitset. -/
def writeOp : Op := { write := true }

/-- A raw `RENAME` operation bitset. -/
def renameOp : Op := { rename := true }

/-- Modelled from the spec (§3): a raw per-path notification produced by
a backend: a path, the operation bitset and an optional pairing cookie. -/
structure RawEvent where
  path : String
  op : Op
  cookie : Option Nat
deriving DecidableEq, Repr

/-- Modelled from the spec (§3, the `event` module is not in the
sources): sub-kinds of a `Modify` event. -/
inductive ModifyKind where
  | data
  | metadata
  | rename
  | other
deriving DecidableEq, Repr

/-- Modelled from the spec (§3): the consumer-facing event
classification tree. -/
inductive EventKind where
  | access
  | create
  | modify (k : ModifyKind)
  | remove
  | other
  | any
deriving DecidableEq, Repr

/-- Modelled from the spec (§3): a semantic event carrying one or two
paths (two only for a resolved rename pair) and its classification. -/
structure Event where
  paths : List String
  kind : EventKind
deriving DecidableEq, Repr

/-- Modelled from the spec (§4.2 step 3, the classification function of
the `event` module): map a merged operation bitset to an `EventKind`.
Applied only when `PreciseEvents` is enabled; otherwise every merged
bitset maps to `Any`. -/
def classify (precise : Bool) (b : Op) : EventKind :=
  if !precise then .any
  else if b.create && !b.remove then .create
  else if b.remove && !b.create then .remove
  else if b.create && b.remove then .modify .data
  else if b.write || b.closeWrite then .modify .data
  else if b.metadata then .modify .metadata
  else if b.rescan then .modify .other
  else .any

/-- Modelled from the spec (§3 Debounce State): one entry of the map
from watched path to its pending, not-yet-flushed aggregated operation
bitset and first-seen timestamp. -/
structure PendingEntry where
  path : String
  ops : Op
  firstSeen : Nat
deriving DecidableEq, Repr

/-- Modelled from the spec (§3 Debounce State): one entry of the map
from pairing cookie to the half-seen rename path awaiting its partner,
with an expiry timestamp. -/
structure RenameEntry where
  cookie : Nat
  path : String
  expiry : Nat
deriving DecidableEq, Repr

/-- Modelled from the spec (§3): the internal state of the debounce
engine. -/
structure DebounceState where
  pending : List PendingEntry
  renames : List RenameEntry
deriving DecidableEq, Repr

/-- The empty debounce state. -/
def DebounceState.empty : DebounceState := ⟨[], []⟩

/-- Merge operation bits into the pending bitset for a path (logical
OR), recording first-seen time if the path has no pending entry yet,
else leaving first-seen time unchanged (§4.2 step 1). -/
def mergePending (now : Nat) : List PendingEntry → String → Op → List PendingEntry
  | [], p, b => [⟨p, b, now⟩]
  | e :: rest, p, b =>
      if e.path = p then ⟨p, e.ops.or b, e.firstSeen⟩ :: rest
      else e :: mergePending now rest p b

/-- Look up the pending rename half for a cookie. -/
def lookupRename (l : List RenameEntry) (c : Nat) : Option RenameEntry :=
  l.find? (fun e => e.cookie == c)

/-- Drop the pending rename half for a cookie. -/
def eraseRename (l : List RenameEntry) (c : Nat) : List RenameEntry :=
  l.filter (fun e => e.cookie != c)

/-- Modelled from the spec (§4.2 step 1, the `debounce` module is not in
the sources): handle one incoming raw event at time `now`.  If the event
has rename semantics and carries a cookie whose pending half is for a
different path, pair them and emit `Modify{rename}` immediately;
otherwise record the half with expiry `now + interval`.  Any other event
is OR-merged into the pending bitset for its path. -/
def handleRaw (interval now : Nat) (s : DebounceState) (e : RawEvent) :
    DebounceState × List Event :=
  if e.op.rename then
    match e.cookie with
    | some c =>
        match lookupRename s.renames c with
        | some r =>
            if r.path ≠ e.path then
              ({ s with renames := eraseRename s.renames c },
               [⟨[r.path, e.path], .modify .rename⟩])
            else
              ({ s with renames := ⟨c, e.path, now + interval⟩ :: eraseRename s.renames c }, [])
        | none =>
            ({ s with renames := ⟨c, e.path, now + interval⟩ :: s.renames }, [])
    | none => ({ s with pending := mergePending now s.pending e.path e.op }, [])
  else
    ({ s with pending := mergePending now s.pending e.path e.op }, [])

/-- Whether a pending entry is due at a flush tick: its first-seen time
is at least one debounce interval old, or its bitset indicates a
terminal operation such as `REMOVE` (§4.2 step 2). -/
def dueAt (interval now : Nat) (e : PendingEntry) : Bool :=
  decide (e.firstSeen + interval ≤ now) || e.ops.remove

/-- Modelled from the spec (§4.2 step 2): a flush tick at time `now`.
Every due pending path is classified and emitted, then cleared; every
cookie whose expiry has passed is emitted as the degraded `Remove`
fallback for its never-paired half (the recorded half is the old side of
the would-be pair, as in the spec's expiry example), then cleared. -/
def flushTick (precise : Bool) (interval now : Nat) (s : DebounceState) :
    DebounceState × List Event :=
  (⟨s.pending.filter (fun e => !dueAt interval now e),
    s.renames.filter (fun r => !decide (r.expiry ≤ now))⟩,
   (s.pending.filter (dueAt interval now)).map
       (fun e => ⟨[e.path], classify precise e.ops⟩)
     ++ (s.renames.filter (fun r => decide (r.expiry ≤ now))).map
       (fun r => ⟨[r.path], .remove⟩))

/-- One scheduling step of the debounce engine: either a raw event
arriving or a periodic flush tick, each stamped with the clock value. -/
inductive DebAction where
  | raw (now : Nat) (e : RawEvent)
  | tick (now : Nat)
deriving DecidableEq, Repr

/-- Run one action against the engine state. -/
def stepAction (precise : Bool) (interval : Nat) (s : DebounceState) :
    DebAction → DebounceState × List Event
  | .raw now e => handleRaw interval now s e
  | .tick now => flushTick precise interval now s

/-- Run a sequence of actions from a given state, collecting the emitted
events in order. -/
def runFrom (precise : Bool) (interval : Nat) (s : DebounceState) :
    List DebAction → DebounceState × List Event
  | [] => (s, [])
  | a :: rest =>
      let step := stepAction precise interval s a
      let next := runFrom precise interval step.1 rest
      (next.1, step.2 ++ next.2)

/-- Run a sequence of actions from the empty state and return the
emitted events. -/
def runDebounce (precise : Bool) (interval : Nat) (acts : List DebAction) :
    List Event :=
  (runFrom precise interval DebounceState.empty acts).2

/-- A raw `WRITE` event on a path. -/
def writeRaw (p : String) : RawEvent := ⟨p, writeOp, none⟩

/-- A raw `RENAME` event on a path carrying a pairing cookie. -/
def renameRaw (p : String) (c : Nat) : RawEvent := ⟨p, renameOp, some c⟩

/-- Modelled from the spec (§3 Config, the `config` module is not in the
sources): the closed set of runtime configuration options. -/
inductive Config where
  | preciseEvents (enabled : Bool)
  | noticeEvents (enabled : Bool)
  | ongoingEvents (intervalOverride : Option Nat)
deriving DecidableEq, Repr

/-- Modelled from the spec (§7, the `error` module is not in the
sources): the error taxonomy surfaced by the library. -/
inductive ErrorKind where
  | pathNotFound
  | watchNotFound
  | watchLimitReached
  | backendFailure
  | channelClosed
  | generic (msg : String)
deriving DecidableEq, Repr

/-- Modelled from the spec (the `config` module is not in the sources)
and the `Watcher::watch` documentation in `src/lib.rs`: whether a watch
descends into subdirectories. -/
inductive RecursiveMode where
  | recursive
  | nonRecursive
deriving DecidableEq, Repr

/-- The default `Watcher::configure` implementation of `src/lib.rs`
(lines 176-178): the body is `Ok(false)` for every option, and the
`&mut self` receiver is never touched.  Modelled as an explicit
state-passing function over an arbitrary watcher state type `S`. -/
def Watcher.configure_default {S : Type} (s : S) (o : Config) :
    S × Except ErrorKind Bool :=
  let _ := o
  (s, .ok false)

/-- Modelled from the spec: the platform backends implementing
`Watcher::watch` are not in the sources.  An abstract filesystem is a
predicate telling which paths exist at registration time. -/
structure FileSystem where
  pathExists : String → Bool

/-- Modelled from the spec (§4.1, §7): `watch(path, recursive_mode)`
fails with `PathNotFound` if the path does not exist at registration
time, with `WatchLimitReached` if the OS notification-handle quota is
exhausted, and otherwise registers the path.  The first component is
the value returned to the caller (the updated watch list on success);
the second is the list of errors placed on the event stream by the
call, which is always empty — these failures are reported to the
caller, not streamed. -/
def watch (fs : FileSystem) (limit : Nat) (watched : List String)
    (p : String) (m : RecursiveMode) :
    Except ErrorKind (List String) × List ErrorKind :=
  let _ := m
  if fs.pathExists p then
    if watched.length < limit then (.ok (p :: watched), [])
    else (.error .watchLimitReached, [])
  else (.error .pathNotFound, [])

/-- Whether a registered path refers to a file or a directory. -/
inductive PathKind where
  | file
  | directory
deriving DecidableEq, Repr

/-- Modelled from the spec (the `Watcher::watch` documentation in
`src/lib.rs`, lines 142-157, the backend bodies being absent): the set
of paths a watch delivers events for.  For a directory, recursive mode
covers the whole subtree while non-recursive mode covers the directory
and its immediate children; for a file, events are delivered only for
the file itself. -/
def watchedPaths (kind : PathKind) (p : String) (children subtree : List String)
    (m : RecursiveMode) : List String :=
  match kind with
  | .file => [p]
  | .directory =>
      match m with
      | .recursive => p :: subtree
      | .nonRecursive => p :: children

/-- The element type a delivery channel carries, as a closed
enumeration of the candidate types named by the specification and the
source. -/
inductive ChannelPayload where
  | rawEvent
  | resultEventError
deriving DecidableEq, Repr

/-- From `src/lib.rs` line 140: `Watcher::new_immediate` takes
`tx: Sender<RawEvent>`, so the delivery channel of a watcher created
through it carries `RawEvent` values. -/
def new_immediate_payload : ChannelPayload := .rawEvent

/-- From `src/lib.rs` line 198: `immediate_watcher` takes
`tx: Sender<RawEvent>`, so the delivery channel of a watcher created
through it carries `RawEvent` values. -/
def immediate_watcher_payload : ChannelPayload := .rawEvent

/-- The constructor of the platform-selected `RecommendedWatcher`
(`src/lib.rs` lines 181-192): the concrete backend bodies are not in
the sources, so the watcher type `W` and its `new_immediate`
constructor over a sender type `T` are abstract parameters. -/
structure WatcherImpl (T W : Type) where
  new_immediate : T → Except ErrorKind W

/-- From `src/lib.rs` lines 198-200: the free function
`immediate_watcher(tx)` whose body is exactly
`Watcher::new_immediate(tx)` on the `RecommendedWatcher` type. -/
def immediate_watcher {T W : Type} (impl : WatcherImpl T W) (tx : T) :
    Except ErrorKind W :=
  impl.new_immediate tx

/-! Helper lemmas about the debounce engine. -/

theorem handleRaw_write (interval t : Nat) (s : DebounceState) (p : String) :
    handleRaw interval t s (writeRaw p) =
      ({ s with pending := mergePending t s.pending p writeOp }, []) :=
  rfl

theorem mergePending_absorb (t t0 : Nat) (p : String) :
    mergePending t [⟨p, writeOp, t0⟩] p writeOp = [⟨p, writeOp, t0⟩] := by
  simp [mergePending, Op.or, writeOp]

theorem runFrom_writes (interval : Nat) (p : String) (t0 : Nat) (ts : List Nat) :
    runFrom true interval ⟨[⟨p, writeOp, t0⟩], []⟩
        (ts.map (fun t => DebAction.raw t (writeRaw p))) =
      (⟨[⟨p, writeOp, t0⟩], []⟩, []) := by
  induction ts with
  | nil => rfl
  | cons t ts ih =>
      simp [runFrom, stepAction, handleRaw_write, mergePending_absorb, ih]

theorem runFrom_append (pre : Bool) (i : Nat) (s : DebounceState)
    (l1 l2 : List DebAction) :
    runFrom pre i s (l1 ++ l2) =
      ((runFrom pre i (runFrom pre i s l1).1 l2).1,
       (runFrom pre i s l1).2 ++ (runFrom pre i (runFrom pre i s l1).1 l2).2) := by
  induction l1 generalizing s with
  | nil => simp [runFrom]
  | cons a l ih => simp [runFrom, ih]

theorem flushTick_write_due (interval T t0 : Nat) (p : String)
    (hT : t0 + interval ≤ T) :
    flushTick true interval T ⟨[⟨p, writeOp, t0⟩], []⟩ =
      (DebounceState.empty, [⟨[p], .modify .data⟩]) := by
  simp [flushTick, dueAt, hT, DebounceState.empty, classify, writeOp]

/-- C1: for every sequence of at least one raw `WRITE` event on the same
path, all arriving within one debounce interval, followed by a flush
tick once the interval has elapsed, the debounce engine emits exactly
one `Modify{data}` event for that path. -/
theorem coalescing_c1 (interval : Nat) (p : String) (t0 : Nat)
    (ts : List Nat) (T : Nat)
    (_hin : ∀ t ∈ ts, t0 ≤ t ∧ t < t0 + interval)
    (hT : t0 + interval ≤ T) :
    runDebounce true interval
        ((t0 :: ts).map (fun t => DebAction.raw t (writeRaw p)) ++ [DebAction.tick T])
      = [⟨[p], .modify .data⟩] := by
  have h0 : handleRaw interval t0 DebounceState.empty (writeRaw p) =
      (⟨[⟨p, writeOp, t0⟩], []⟩, []) := rfl
  simp [runDebounce, List.map_cons, List.cons_append, runFrom, stepAction, h0,
    runFrom_append, runFrom_writes, flushTick_write_due _ _ _ _ hT]

/-- C1 witness: three `WRITE` events at times 0, 1, 2 on path `a` with a
debounce interval of 10 and a flush tick at time 10 yield exactly one
`Modify{data}` event. -/
theorem coalescing_c1_witness :
    (∀ t ∈ [1, 2], 0 ≤ t ∧ t < 0 + 10) ∧ 0 + 10 ≤ 10 ∧
    runDebounce true 10
        ((0 :: [1, 2]).map (fun t => DebAction.raw t (writeRaw "a")) ++ [DebAction.tick 10])
      = [⟨[ "a"], .modify .data⟩] :=
  ⟨by decide, by decide, coalescing_c1 10 "a" 0 [1, 2] 10 (by decide) (by decide)⟩

/-- C2: two raw `RENAME` events carrying the same cookie on two
different paths within one debounce interval produce exactly one
`Modify{rename}` event with the ordered path list `[a, b]`, emitted
already on receipt of the second half (before any tick), and a later
flush tick emits nothing further — no separate `Create` or `Remove`
event for either path. -/
theorem rename_pairing_c2 (interval : Nat) (a b : String) (c : Nat)
    (ta tb T : Nat) (hab : a ≠ b) (_hin : tb < ta + interval) :
    runDebounce true interval
        [.raw ta (renameRaw a c), .raw tb (renameRaw b c)]
      = [⟨[a, b], .modify .rename⟩]
    ∧ runDebounce true interval
        [.raw ta (renameRaw a c), .raw tb (renameRaw b c), .tick T]
      = [⟨[a, b], .modify .rename⟩] := by
  constructor <;>
    simp [runDebounce, runFrom, stepAction, handleRaw, renameRaw, renameOp,
      lookupRename, eraseRename, flushTick, DebounceState.empty, hab]

/-- C2 witness: `RENAME` on path `a` with cookie 7 at time 0, then
`RENAME` on path `b` with cookie 7 at time 1, interval 10, yield exactly
the paired `Modify{rename}` event, with and without a trailing tick. -/
theorem rename_pairing_c2_witness :
    ( "a" : String) ≠ "b" ∧ (1 : Nat) < 0 + 10 ∧
    (runDebounce true 10
        [.raw 0 (renameRaw "a" 7), .raw 1 (renameRaw "b" 7)]
      = [⟨[ "a", "b"], .modify .rename⟩]
    ∧ runDebounce true 10
        [.raw 0 (renameRaw "a" 7), .raw 1 (renameRaw "b" 7), .tick 20]
      = [⟨[ "a", "b"], .modify .rename⟩]) :=
  ⟨by decide, by decide, rename_pairing_c2 10 "a" "b" 7 0 1 20 (by decide) (by decide)⟩

/-- C3: a raw `RENAME` half with a cookie whose partner never arrives is
emitted, at the first flush tick after its expiry, as exactly one
fallback `Remove` event for its path, and the cookie entry is cleared
(the final state is empty again). -/
theorem rename_expiry_c3 (interval : Nat) (a : String) (c : Nat)
    (ta T : Nat) (hT : ta + interval ≤ T) :
    runFrom true interval DebounceState.empty
        [.raw ta (renameRaw a c), .tick T]
      = (DebounceState.empty, [⟨[a], .remove⟩]) := by
  simp [runFrom, stepAction, handleRaw, renameRaw, renameOp, lookupRename,
    flushTick, DebounceState.empty, dueAt, hT]

/-- C3 witness: a lone `RENAME` on path `a` with cookie 7 at time 0 and
a tick at time 10 with interval 10 yield exactly one `Remove` event and
an empty final state. -/
theorem rename_expiry_c3_witness :
    (0 : Nat) + 10 ≤ 10 ∧
    runFrom true 10 DebounceState.empty
        [.raw 0 (renameRaw "a" 7), .tick 10]
      = (DebounceState.empty, [⟨[ "a"], .remove⟩]) :=
  ⟨by decide, rename_expiry_c3 10 "a" 7 0 10 (by decide)⟩

/-- C4: the trait's default `configure` returns `Ok(false)` for every
configuration option — the "watcher does not support or implement the
option" outcome — and never returns `Err`: a configuration rejection is
a boolean outcome, not an error. -/
theorem configure_rejection_is_boolean_c4 {S : Type} (s : S) (o : Config) :
    (Watcher.configure_default s o).2 = Except.ok false
    ∧ ∀ e : ErrorKind, (Watcher.configure_default s o).2 ≠ Except.error e :=
  ⟨rfl, fun _ h => Except.noConfusion h⟩

/-- C5 counterexample: neither public entry point's delivery channel
carries `Result<Event, Error>` — both `Watcher::new_immediate` and
`immediate_watcher` take a `Sender<RawEvent>`. -/
theorem channel_payload_c5_counterexample :
    new_immediate_payload ≠ ChannelPayload.resultEventError
    ∧ immediate_watcher_payload ≠ ChannelPayload.resultEventError := by
  decide

/-- C5 (amended): the consumer-facing delivery channel of every watcher
created through the public entry points carries raw per-path
notifications of type `RawEvent`, not `Result<Event, Error>`. -/
theorem channel_payload_c5 :
    new_immediate_payload = ChannelPayload.rawEvent
    ∧ immediate_watcher_payload = ChannelPayload.rawEvent :=
  ⟨rfl, rfl⟩

/-- C6: for every path that does not exist at registration time,
`watch` fails with `PathNotFound` returned immediately to the caller,
and no error is placed on the event stream. -/
theorem watch_pathNotFound_c6 (fs : FileSystem) (limit : Nat)
    (w : List String) (p : String) (m : RecursiveMode)
    (h : fs.pathExists p = false) :
    watch fs limit w p m = (.error .pathNotFound, []) := by
  simp [watch, h]

/-- C6 witness: on a filesystem where no path exists, watching path `x`
returns the `PathNotFound` error and streams nothing. -/
theorem watch_pathNotFound_c6_witness :
    (FileSystem.mk (fun _ => false)).pathExists "x" = false
    ∧ watch (FileSystem.mk (fun _ => false)) 1 [] "x" RecursiveMode.recursive
        = (.error .pathNotFound, []) :=
  ⟨rfl, watch_pathNotFound_c6 (FileSystem.mk (fun _ => false)) 1 []
    "x" RecursiveMode.recursive rfl⟩

theorem map_get_mid {α β : Type} (f : α → β) (b : α) :
    ∀ (l1 t : List α), ((l1 ++ b :: t).map f).get? l1.length = some (f b) := by
  intro l1
  induction l1 with
  | nil => intro t; rfl
  | cons x xs ih => intro t; simpa [List.get?] using ih t

theorem map_get_mid2 {α β : Type} (f : α → β) (b : α) :
    ∀ (l1 l2 t : List α),
      ((l1 ++ b :: (l2 ++ b :: t)).map f).get? (l1.length + (l2.length + 1))
        = some (f b) := by
  intro l1
  induction l1 with
  | nil =>
      intro l2 t
      simp only [List.nil_append, List.length_nil, Nat.zero_add, List.map_cons,
        List.get?_cons_succ]
      exact map_get_mid f b l2 t
  | cons x xs ih =>
      intro l2 t
      have hx : (xs.length + 1) + (l2.length + 1) = (xs.length + (l2.length + 1)) + 1 :=
        Nat.add_right_comm _ _ _
      simp only [List.cons_append, List.map_cons, List.length_cons, hx,
        List.get?_cons_succ]
      exact ih l2 t

/-- C7: the classification function from a merged operation bitset to
an `EventKind` is deterministic and stateless: in any run of
classifications, classifying the same bitset `b` at two positions —
interleaved with arbitrary other classifications `l1`, `l2`, `l3` —
yields `classify pre b` both times. -/
theorem classify_stateless_c7 (pre : Bool) (b : Op) (l1 l2 l3 : List Op) :
    ((l1 ++ b :: (l2 ++ b :: l3)).map (classify pre)).get? l1.length
      = some (classify pre b)
    ∧ ((l1 ++ b :: (l2 ++ b :: l3)).map (classify pre)).get?
        (l1.length + (l2.length + 1))
      = some (classify pre b) :=
  ⟨map_get_mid (classify pre) b l1 (l2 ++ b :: l3),
   map_get_mid2 (classify pre) b l1 l2 l3⟩

/-- C8: the free function `immediate_watcher(tx)` returns exactly the
result of `Watcher::new_immediate(tx)` on the platform's
`RecommendedWatcher` implementation — the two entry points are
equivalent. -/
theorem immediate_watcher_c8 {T W : Type} (impl : WatcherImpl T W) (tx : T) :
    immediate_watcher impl tx = impl.new_immediate tx :=
  rfl

/-- C9: when the registered path refers to a file, `watch` ignores the
`recursive_mode` argument: the set of paths events are delivered for is
the same under any two modes, namely just the file itself. -/
theorem watch_file_ignores_mode_c9 (p : String) (children subtree : List String)
    (m1 m2 : RecursiveMode) :
    watchedPaths .file p children subtree m1
      = watchedPaths .file p children subtree m2
    ∧ watchedPaths .file p children subtree m1 = [p] :=
  ⟨rfl, rfl⟩

/-- C10: the trait's default `configure` implementation returns
`Ok(false)` and leaves the watcher's state completely unchanged. -/
theorem configure_default_frame_c10 {S : Type} (s : S) (o : Config) :
    Watcher.configure_default s o = (s, Except.ok false) :=
  rfl

end Notify
